import Mathlib

/-!
Verification of the tool dispatch and privileged-execution subsystem of the
self-hosted Supabase MCP server.

The definitions below are a shallow embedding of the TypeScript sources:
  * `src/tools/types.ts` — role-to-privilege access control (`canAccessTool`),
  * `src/tools/utils.ts` — the SQL execution fallback chain (`executeSqlWithFallback`),
  * `src/index.ts` — the per-call tool dispatcher (`createMcpServer`'s
    CallTool handler),
  * `src/server/auth-middleware.ts` — JWT bearer-token verification,
  * `src/server/http-server.ts` — the HTTP front-end (rate limiting, CORS,
    routing).

Effectful code is embedded by explicit state passing (the rate-limit map) and
by effect traces (audit log lines, which execution backends were invoked).
JavaScript strings are Lean `String`s; JavaScript numbers holding timestamps
and counters are `Nat` (they stay far below 2^53 so no overflow is modelled).
-/

namespace SupabaseMcp

/-- Privilege levels for tools (`ToolPrivilegeLevel` in `src/tools/types.ts`). -/
inductive ToolPrivilegeLevel
  | regular
  | privileged
deriving DecidableEq, Repr

/-- User context extracted from a verified JWT (`UserContext` in
`src/tools/types.ts`).  `email` is `Option` because the TS field is
`string | null`. -/
structure UserContext where
  userId : String
  email : Option String
  role : String
deriving DecidableEq, Repr

/-- The fixed role-to-privilege policy table (`ROLE_PRIVILEGE_MAP` in
`src/tools/types.ts`), as an association list keyed by role string. -/
def ROLE_PRIVILEGE_MAP : List (String × List ToolPrivilegeLevel) :=
  [("service_role", [ToolPrivilegeLevel.regular, ToolPrivilegeLevel.privileged]),
   ("authenticated", [ToolPrivilegeLevel.regular]),
   ("anon", [])]

/-- `canAccessTool` from `src/tools/types.ts`: looks the role up in the table
(`Object.hasOwn` guarded own-property lookup becomes association-list lookup);
an absent role falls back to the `authenticated` entry; the result is
membership of the required level in the allowed set. -/
def canAccessTool (userRole : String) (toolPrivilegeLevel : ToolPrivilegeLevel) : Bool :=
  let allowedLevels :=
    match ROLE_PRIVILEGE_MAP.lookup userRole with
    | some levels => levels
    | none => (ROLE_PRIVILEGE_MAP.lookup "authenticated").getD []
  allowedLevels.contains toolPrivilegeLevel

/-- JavaScript `x || y` on an optional string: the empty string is falsy, so
both a missing and an empty `x` fall through to the default. -/
def jsOrDefault (x : Option String) (d : String) : String :=
  match x with
  | some s => if s = "" then d else s
  | none => d

/-- A Zod validation issue: a field path and a human-readable reason.  Zod's
`parse` collects every issue of the input rather than stopping at the first;
the `parse` field of `AppTool` therefore reports the full list. -/
structure ZodIssue where
  path : List String
  message : String
deriving DecidableEq, Repr

/-- A tool descriptor (`AppTool` in `src/index.ts`), parameterised by the type
`α` of raw arguments and `β` of parsed arguments.  `privilegeLevel` is
`Option` because the TS field is optional.  `parse` embeds
`tool.inputSchema.parse` (throwing a ZodError whose issue list it returns on
the error side); `execute` embeds the tool body, whose result the dispatcher
serializes to text, and whose thrown errors it returns on the error side. -/
structure AppTool (α β : Type) where
  name : String
  privilegeLevel : Option ToolPrivilegeLevel
  parse : α → Except (List ZodIssue) β
  execute : β → Except String String

/-- MCP protocol error codes used by the dispatcher (`ErrorCode` in the MCP
SDK). -/
inductive ErrorCode
  | methodNotFound
  | invalidRequest
deriving DecidableEq, Repr

/-- The outcome of one CallTool dispatch: either a thrown `McpError`
(protocol-level error) or a returned content reply, whose `isError` flag marks
in-band tool failures. -/
inductive CallToolResult
  | mcpError (code : ErrorCode) (message : String)
  | reply (text : String) (isError : Bool)
deriving DecidableEq, Repr

/-- Effect trace of one dispatch: the `[SECURITY]` audit lines written with
`console.error`, and whether the tool's `execute` function was invoked (a
backend call can only happen inside `execute`). -/
structure DispatchTrace where
  logs : List String
  executed : Bool
deriving DecidableEq, Repr

/-- Single quote character, used inside dispatcher error messages. -/
def sq : String := String.singleton (Char.ofNat 39)

/-- Message for a tool present in the full catalog but filtered out by the
whitelist (`src/index.ts` line 288). -/
def disabledMessage (toolName : String) : String :=
  "Tool \"" ++ toolName ++ "\" is available but not enabled by the current server configuration."

/-- Message for a tool present in neither catalog (`src/index.ts` line 291). -/
def unknownMessage (toolName : String) : String :=
  "Unknown tool: " ++ toolName

/-- The string name of a privilege level, as interpolated into messages. -/
def privilegeName : ToolPrivilegeLevel → String
  | ToolPrivilegeLevel.regular => "regular"
  | ToolPrivilegeLevel.privileged => "privileged"

/-- The access-denied `McpError` message (`src/index.ts` lines 305-306): names
the tool, the required privilege and the caller's actual role. -/
def accessDeniedMessage (toolName : String) (lvl : ToolPrivilegeLevel) (role : String) : String :=
  "Access denied: Tool " ++ sq ++ toolName ++ sq ++ " requires " ++ sq ++ privilegeName lvl
    ++ sq ++ " privilege. Your role " ++ sq ++ role ++ sq
    ++ " does not have sufficient permissions."

/-- The `[SECURITY]` audit log line emitted on an access denial
(`src/index.ts` line 302). -/
def securityLogLine (u : UserContext) (toolName : String) (lvl : ToolPrivilegeLevel) : String :=
  "[SECURITY] Access denied: User " ++ jsOrDefault u.email u.userId ++ " (role: " ++ u.role
    ++ ") attempted to access " ++ toolName ++ " (requires: " ++ privilegeName lvl ++ ")"

/-- The in-band validation error message (`src/index.ts` line 347): every Zod
issue is formatted as `path: reason` and all of them are joined with a comma. -/
def validationMessage (toolName : String) (issues : List ZodIssue) : String :=
  "Error executing tool " ++ toolName ++ ": Input validation failed: "
    ++ String.intercalate ", "
        (issues.map (fun e => String.intercalate "." e.path ++ ": " ++ e.message))

/-- The in-band message for an error thrown by the tool body
(`src/index.ts` lines 345, 349). -/
def execErrorMessage (toolName : String) (msg : String) : String :=
  "Error executing tool " ++ toolName ++ ": " ++ msg

/-- The `try` block of the CallTool handler (`src/index.ts` lines 311-357):
parse the raw arguments with the tool's Zod schema — a ZodError is caught and
aggregated into one in-band message without invoking the body — then invoke
`execute`, catching any thrown error into an in-band message. -/
def executePhase {α β : Type} (tool : AppTool α β) (toolName : String) (args : α) :
    CallToolResult × DispatchTrace :=
  match tool.parse args with
  | Except.error issues =>
      (CallToolResult.reply (validationMessage toolName issues) true, ⟨[], false⟩)
  | Except.ok parsed =>
      match tool.execute parsed with
      | Except.ok text => (CallToolResult.reply text false, ⟨[], true⟩)
      | Except.error msg =>
          (CallToolResult.reply (execErrorMessage toolName msg) true, ⟨[], true⟩)

/-- The CallTool request handler installed by `createMcpServer`
(`src/index.ts` lines 280-358).  `registeredTools` is the whitelist-filtered
catalog, `availableTools` the full catalog (both name-keyed records, embedded
as lists of descriptors looked up by name); `userContext` is present exactly
in HTTP mode.  Resolution, privilege check, validation and execution happen in
that order, each able to exit first. -/
def handleCallTool {α β : Type} (registeredTools availableTools : List (AppTool α β))
    (userContext : Option UserContext) (toolName : String) (args : α) :
    CallToolResult × DispatchTrace :=
  match registeredTools.find? (fun t => t.name == toolName) with
  | none =>
      if availableTools.any (fun t => t.name == toolName) then
        (CallToolResult.mcpError ErrorCode.methodNotFound (disabledMessage toolName), ⟨[], false⟩)
      else
        (CallToolResult.mcpError ErrorCode.methodNotFound (unknownMessage toolName), ⟨[], false⟩)
  | some tool =>
      match userContext with
      | some u =>
          let toolPrivilegeLevel := tool.privilegeLevel.getD ToolPrivilegeLevel.regular
          if canAccessTool u.role toolPrivilegeLevel then
            executePhase tool toolName args
          else
            (CallToolResult.mcpError ErrorCode.invalidRequest
              (accessDeniedMessage toolName toolPrivilegeLevel u.role),
             ⟨[securityLogLine u toolName toolPrivilegeLevel], false⟩)
      | none => executePhase tool toolName args

/-- A SQL error payload (`SqlErrorResponse.error` in `src/types/index.ts`). -/
structure SqlError where
  message : String
  code : String
deriving DecidableEq, Repr

/-- A SQL execution result (`SqlExecutionResult` in `src/types/index.ts`):
either an array of rows (each row opaque here, values passed through
unmodified) or an error payload. -/
inductive SqlExecutionResult
  | rows (rows : List String)
  | sqlError (e : SqlError)
deriving DecidableEq, Repr

/-- The two network-touching execution primitives of the client. -/
inductive Backend
  | pg
  | rpc
deriving DecidableEq, Repr

/-- The client capability surface consumed by the fallback chain
(`SelfhostedSupabaseClient`): the two capability predicates and the two
execution primitives, embedded as uninterpreted result functions. -/
structure SelfhostedSupabaseClient where
  isPgAvailable : Bool
  isServiceRoleAvailable : Bool
  executeSqlWithPg : String → SqlExecutionResult
  executeSqlViaServiceRoleRpc : String → Bool → SqlExecutionResult

/-- `executeSqlWithFallback` from `src/tools/utils.ts` (lines 119-143).  The
second component is the effect trace: which execution primitives were invoked,
in order — every invocation of either primitive is network activity. -/
def executeSqlWithFallback (client : SelfhostedSupabaseClient) (sql : String)
    (readOnly : Bool) : SqlExecutionResult × List Backend :=
  if client.isPgAvailable then
    (client.executeSqlWithPg sql, [Backend.pg])
  else if client.isServiceRoleAvailable then
    (client.executeSqlViaServiceRoleRpc sql readOnly, [Backend.rpc])
  else
    (SqlExecutionResult.sqlError
      ⟨"Neither direct database connection (DATABASE_URL) nor service role key (SUPABASE_SERVICE_ROLE_KEY) is configured. Cannot execute SQL.",
       "MCP_CONFIG_ERROR"⟩, [])

/-- Sample privileged tool for concrete evaluations (shape of
`executeSqlTool` in `src/tools/execute_sql.ts`, with opaque parse/execute). -/
def sampleToolC1 : AppTool String String :=
  ⟨"execute_sql", some ToolPrivilegeLevel.privileged,
   fun s => Except.ok s, fun _ => Except.ok "rows"⟩

/-- Sample authenticated-role caller. -/
def sampleUserC1 : UserContext := ⟨"user-123", none, "authenticated"⟩

/-- Sample tool whose Zod parse rejects with two field-level issues. -/
def sampleToolC8 : AppTool String String :=
  ⟨"execute_sql", some ToolPrivilegeLevel.privileged,
   fun _ => Except.error
     [⟨["sql"], "Required"⟩, ⟨["read_only"], "Expected boolean, received string"⟩],
   fun _ => Except.ok "rows"⟩

/-- Sample tool whose descriptor omits `privilegeLevel` (shape of
`listVectorIndexesTool` in `src/tools/list_vector_indexes.ts`). -/
def sampleToolC10 : AppTool String String :=
  ⟨"list_vector_indexes", none, fun s => Except.ok s, fun _ => Except.ok "[]"⟩

/-- Sample client with a direct connection configured whose direct execution
reports a database error. -/
def sampleClientC3 : SelfhostedSupabaseClient :=
  ⟨true, true,
   fun _ => SqlExecutionResult.sqlError ⟨"relation \"missing\" does not exist", "42P01"⟩,
   fun _ _ => SqlExecutionResult.rows []⟩

/-- Sample client with neither a direct connection nor a service-role key. -/
def sampleClientC6 : SelfhostedSupabaseClient :=
  ⟨false, false,
   fun _ => SqlExecutionResult.rows [],
   fun _ _ => SqlExecutionResult.rows []⟩

/-- The JWT payload shape consumed by the middleware (`SupabaseJwtPayload` in
`src/server/auth-middleware.ts`).  A missing or empty `sub` is modelled as
`""` (both are falsy in `!decoded.sub`). -/
structure SupabaseJwtPayload where
  sub : String
  email : Option String
  role : Option String
  exp : Option Nat
deriving DecidableEq, Repr

/-- A bearer token as the verifier sees it: the secret it was signed with and
the claims it carries.  (Signature verification succeeds exactly when
`signedWith` equals the configured secret.) -/
structure Token where
  signedWith : String
  payload : SupabaseJwtPayload
deriving DecidableEq, Repr

/-- Errors thrown by the jsonwebtoken library's `verify`.  In that library
`TokenExpiredError` and `NotBeforeError` are subclasses of
`JsonWebTokenError` (their prototypes are created from
`JsonWebTokenError.prototype`), which is what the middleware's `instanceof`
checks observe. -/
inductive JwtLibError
  | tokenExpired (expiredAt : Nat)
  | jsonWebToken (msg : String)
  | notBefore (date : Nat)
  | otherError (msg : String)
deriving DecidableEq, Repr

/-- `error instanceof jwt.JsonWebTokenError`: true for every error of the
library's hierarchy, including `TokenExpiredError` and `NotBeforeError`. -/
def JwtLibError.isJsonWebTokenError : JwtLibError → Bool
  | tokenExpired _ => true
  | jsonWebToken _ => true
  | notBefore _ => true
  | otherError _ => false

/-- `error instanceof jwt.TokenExpiredError`. -/
def JwtLibError.isTokenExpiredError : JwtLibError → Bool
  | tokenExpired _ => true
  | _ => false

/-- The `message` property of the thrown error; the library's expiry error
carries the message `jwt expired`. -/
def JwtLibError.message : JwtLibError → String
  | tokenExpired _ => "jwt expired"
  | jsonWebToken m => m
  | notBefore _ => "jwt not active"
  | otherError m => m

/-- jsonwebtoken's `jwt.verify(token, secret, HS256)`: a token signed with a
different secret fails signature verification (JsonWebTokenError with message
`invalid signature`) regardless of its claims; a correctly signed token whose
`exp` claim is not in the future throws `TokenExpiredError`; otherwise the
decoded payload is returned. -/
def jwtVerify (jwtSecret : String) (token : Token) (now : Nat) :
    Except JwtLibError SupabaseJwtPayload :=
  if token.signedWith ≠ jwtSecret then
    Except.error (JwtLibError.jsonWebToken "invalid signature")
  else
    match token.payload.exp with
    | some e =>
        if e ≤ now then Except.error (JwtLibError.tokenExpired e)
        else Except.ok token.payload
    | none => Except.ok token.payload

/-- The authenticated user attached to the request (`AuthenticatedUser` in
`src/server/auth-middleware.ts`). -/
structure AuthenticatedUser where
  userId : String
  email : Option String
  role : String
  exp : Nat
deriving DecidableEq, Repr

/-- Outcome of the auth middleware on one request: a short-circuit response
(`res.status(...).json(...)`; the `error` and `message` body fields) or
`next()` with `req.user` attached. -/
inductive AuthOutcome
  | respond (status : Nat) (error : String) (message : String)
  | nextAuthenticated (user : AuthenticatedUser)
deriving DecidableEq, Repr

/-- JavaScript `x || null` on an optional string (empty string is falsy). -/
def jsOrNull (x : Option String) : Option String :=
  match x with
  | some s => if s = "" then none else some s
  | none => none

/-- The verify-and-decode block of the auth middleware
(`src/server/auth-middleware.ts` lines 68-120): `jwt.verify`, the `sub` check,
attaching `req.user`, and the catch clauses — the `instanceof
JsonWebTokenError` check comes before the `instanceof TokenExpiredError`
check, exactly as in the source. -/
def authHandleToken (jwtSecret : String) (token : Token) (now : Nat) : AuthOutcome :=
  match jwtVerify jwtSecret token now with
  | Except.ok decoded =>
      if decoded.sub = "" then
        AuthOutcome.respond 401 "Unauthorized" "Invalid token: missing subject (sub) claim"
      else
        AuthOutcome.nextAuthenticated
          ⟨decoded.sub, jsOrNull decoded.email, jsOrDefault decoded.role "authenticated",
           decoded.exp.getD 0⟩
  | Except.error e =>
      if e.isJsonWebTokenError then
        AuthOutcome.respond 401 "Unauthorized" ("Invalid token: " ++ e.message)
      else if e.isTokenExpiredError then
        AuthOutcome.respond 401 "Unauthorized" "Token has expired"
      else
        AuthOutcome.respond 500 "Internal Server Error" "Failed to verify authentication token"

/-- The Authorization header as the middleware's prefix checks classify it:
absent, not of `Bearer` shape, `Bearer` with an empty token, or a bearer
token. -/
inductive AuthHeader
  | missing
  | notBearer (value : String)
  | bearerEmpty
  | bearer (token : Token)
deriving DecidableEq, Repr

/-- The middleware returned by `createAuthMiddleware`
(`src/server/auth-middleware.ts`): the three header-shape rejections, then
token verification. -/
def createAuthMiddleware (jwtSecret : String) (header : AuthHeader) (now : Nat) : AuthOutcome :=
  match header with
  | AuthHeader.missing =>
      AuthOutcome.respond 401 "Unauthorized" "Missing Authorization header"
  | AuthHeader.notBearer _ =>
      AuthOutcome.respond 401 "Unauthorized"
        "Invalid Authorization header format. Expected: Bearer <token>"
  | AuthHeader.bearerEmpty =>
      AuthOutcome.respond 401 "Unauthorized" "Missing token in Authorization header"
  | AuthHeader.bearer token => authHandleToken jwtSecret token now

/-- HTTP server options (`HttpMcpServerOptions` in
`src/server/http-server.ts`). -/
structure HttpMcpServerOptions where
  port : Nat
  host : String
  jwtSecret : String
  corsOrigins : Option (List String)
  rateLimitWindowMs : Option Nat
  rateLimitMaxRequests : Option Nat
  requestTimeoutMs : Option Nat
deriving DecidableEq, Repr

/-- One rate-limit record (`requestCounts` map values): request count and the
window expiry time in milliseconds. -/
structure RateRecord where
  count : Nat
  resetTime : Nat
deriving DecidableEq, Repr

/-- The process-wide rate-limit map keyed by client key, embedded as a
function (the unmentioned keys mapping to `none`). -/
abbrev RLState := String → Option RateRecord

/-- What `checkRateLimit` returns for the response headers. -/
structure RateLimitInfo where
  allowed : Bool
  remaining : Int
  resetTime : Nat
  limit : Nat
deriving DecidableEq, Repr

/-- `HttpMcpServer.checkRateLimit` (`src/server/http-server.ts` lines 84-124),
with the map update made explicit: a missing or expired record starts a fresh
window of count 1; a live record at or over the limit is rejected without
mutation; otherwise the count is incremented in place. -/
def checkRateLimit (opts : HttpMcpServerOptions) (st : RLState) (clientKey : String)
    (now : Nat) : RateLimitInfo × RLState :=
  let windowMs := opts.rateLimitWindowMs.getD 60000
  let maxRequests := opts.rateLimitMaxRequests.getD 100
  match st clientKey with
  | none =>
      let record : RateRecord := ⟨1, now + windowMs⟩
      (⟨true, (maxRequests : Int) - 1, record.resetTime, maxRequests⟩,
       fun k => if k = clientKey then some record else st k)
  | some record =>
      if record.resetTime ≤ now then
        let record' : RateRecord := ⟨1, now + windowMs⟩
        (⟨true, (maxRequests : Int) - 1, record'.resetTime, maxRequests⟩,
         fun k => if k = clientKey then some record' else st k)
      else if maxRequests ≤ record.count then
        (⟨false, 0, record.resetTime, maxRequests⟩, st)
      else
        let record' : RateRecord := ⟨record.count + 1, record.resetTime⟩
        (⟨true, (maxRequests : Int) - (record'.count : Int), record.resetTime, maxRequests⟩,
         fun k => if k = clientKey then some record' else st k)

/-- `Math.max(1, Math.ceil((resetTime - now) / 1000))` from the rate-limit
middleware (`src/server/http-server.ts` line 233), on the request's
timestamp. -/
def retryAfterSeconds (resetTime now : Nat) : Nat :=
  max 1 ((resetTime - now + 999) / 1000)

/-- Outcome of the rate-limit middleware stage: proceed to the next stage
(`next()`), or respond 429 with the retry-after hint and stop. -/
inductive RateLimitOutcome
  | next
  | tooMany (retryAfter : Nat)
deriving DecidableEq, Repr

/-- The rate-limit middleware (`src/server/http-server.ts` lines 216-244):
`/health` is skipped entirely; otherwise the counter is checked and an
over-limit request is answered 429 without calling `next()`. -/
def rateLimitStage (opts : HttpMcpServerOptions) (st : RLState) (path clientKey : String)
    (now : Nat) : RateLimitOutcome × RLState :=
  if path = "/health" then (RateLimitOutcome.next, st)
  else
    let r := checkRateLimit opts st clientKey now
    if r.1.allowed then (RateLimitOutcome.next, r.2)
    else (RateLimitOutcome.tooMany (retryAfterSeconds r.1.resetTime now), r.2)

/-- `HttpMcpServer.isOriginAllowed` (`src/server/http-server.ts` lines
141-174): no origin header is allowed; otherwise the configured (or default
localhost) list is consulted by exact match, `*`, or a `base:*` wildcard. -/
def isOriginAllowed (opts : HttpMcpServerOptions) (origin : Option String) : Bool :=
  match origin with
  | none => true
  | some o =>
      let allowedOrigins := opts.corsOrigins.getD
        ["http://localhost:" ++ toString opts.port,
         "http://127.0.0.1:" ++ toString opts.port,
         "http://" ++ opts.host ++ ":" ++ toString opts.port]
      if allowedOrigins.contains "*" then true
      else if allowedOrigins.contains o then true
      else allowedOrigins.any (fun allowed =>
        allowed.endsWith ":*" && o.startsWith (allowed.dropRight 2 ++ ":"))

/-- One inbound HTTP request, as the middleware pipeline consumes it. -/
structure HttpRequest where
  method : String
  path : String
  origin : Option String
  header : AuthHeader
  clientKey : String
deriving DecidableEq, Repr

/-- Where one request ends up after the middleware pipeline and routing. -/
inductive HttpOutcome
  | healthy
  | rateLimited (retryAfter : Nat)
  | corsForbidden
  | corsNoContent
  | authRejected (status : Nat) (message : String)
  | mcpDispatch (user : UserContext)
  | methodNotAllowed (message : String)
  | notFound
deriving DecidableEq, Repr

/-- The per-request pipeline of `HttpMcpServer` (`setupMiddleware` then
`setupRoutes` in `src/server/http-server.ts`): security headers and the
timeout timer are pure effects and carry no branching, then the rate-limit
stage (skipping `/health`), the CORS stage, and the routes — `GET /health`
with no auth, and `/mcp` behind `createAuthMiddleware`, where a `POST`
reaches the MCP dispatch with the authenticated user as its `UserContext`. -/
def handleHttpRequest (opts : HttpMcpServerOptions) (st : RLState) (req : HttpRequest)
    (now : Nat) : HttpOutcome × RLState :=
  let rl := rateLimitStage opts st req.path req.clientKey now
  match rl.1 with
  | RateLimitOutcome.tooMany ra => (HttpOutcome.rateLimited ra, rl.2)
  | RateLimitOutcome.next =>
      if isOriginAllowed opts req.origin = false then
        (HttpOutcome.corsForbidden, rl.2)
      else if req.method = "OPTIONS" then
        (HttpOutcome.corsNoContent, rl.2)
      else if req.path = "/health" then
        if req.method = "GET" then (HttpOutcome.healthy, rl.2)
        else (HttpOutcome.notFound, rl.2)
      else if req.path = "/mcp" then
        match createAuthMiddleware opts.jwtSecret req.header now with
        | AuthOutcome.respond status _err msg => (HttpOutcome.authRejected status msg, rl.2)
        | AuthOutcome.nextAuthenticated user =>
            if req.method = "POST" then
              (HttpOutcome.mcpDispatch ⟨user.userId, user.email, user.role⟩, rl.2)
            else if req.method = "GET" then
              (HttpOutcome.methodNotAllowed
                "GET requests are not supported in stateless mode. Use POST for MCP requests.", rl.2)
            else if req.method = "DELETE" then
              (HttpOutcome.methodNotAllowed
                "Session termination is not supported in stateless mode.", rl.2)
            else (HttpOutcome.notFound, rl.2)
      else (HttpOutcome.notFound, rl.2)

/-- Running a sequence of timestamped requests through the rate-limit stage,
threading the map; returns the per-request outcomes in order and the final
map. -/
def runRequests (opts : HttpMcpServerOptions) (path clientKey : String) :
    List Nat → RLState → List RateLimitOutcome × RLState
  | [], st => ([], st)
  | t :: ts, st =>
      let r := rateLimitStage opts st path clientKey t
      let rest := runRequests opts path clientKey ts r.2
      (r.1 :: rest.1, rest.2)

/-- Sample secret for concrete token evaluations. -/
def sampleSecret : String := "sample-jwt-secret-0123456789abcdef"

/-- A token correctly signed with `sampleSecret` whose `exp` is in the past
relative to the evaluation time 200. -/
def expiredTokenC4 : Token := ⟨sampleSecret, ⟨"user-123", none, none, some 100⟩⟩

/-- A token signed with a different secret. -/
def wrongSecretTokenC4 : Token :=
  ⟨"some-other-secret", ⟨"user-123", none, none, some 100000⟩⟩

/-- Sample HTTP options for concrete evaluations. -/
def sampleOptsC9 : HttpMcpServerOptions :=
  ⟨3000, "127.0.0.1", sampleSecret, none, none, none, none⟩

/-- Sample rate-limit state whose only record is already exhausted (count 100
at the default limit 100) inside a window lasting until time 10000000. -/
def exhaustedStateC9 : RLState :=
  fun k => if k = "10.0.0.1" then some ⟨100, 10000000⟩ else none

/-- Sample HTTP options with a 60000 ms window and a 2-request maximum. -/
def sampleOptsC7 : HttpMcpServerOptions :=
  ⟨3000, "127.0.0.1", sampleSecret, none, some 60000, some 2, some 30000⟩

end SupabaseMcp

namespace SupabaseMcp

/-- Helper: a role string outside the policy table falls back to the
`authenticated` entry of `ROLE_PRIVILEGE_MAP`. -/
lemma canAccessTool_eq_authenticated_of_unrecognized (role : String)
    (h1 : role ≠ "service_role") (h2 : role ≠ "authenticated") (h3 : role ≠ "anon")
    (p : ToolPrivilegeLevel) :
    canAccessTool role p = canAccessTool "authenticated" p := by
  have l1 : (role == "service_role") = false := by
    simp [beq_iff_eq]; exact h1
  have l2 : (role == "authenticated") = false := by
    simp [beq_iff_eq]; exact h2
  have l3 : (role == "anon") = false := by
    simp [beq_iff_eq]; exact h3
  simp [canAccessTool, ROLE_PRIVILEGE_MAP, List.lookup, l1, l2, l3]

/-- Claim C2: `canAccessTool` implements exactly the fixed policy table:
`service_role` is allowed both `regular` and `privileged`; `authenticated` is
allowed `regular` only; `anon` is allowed nothing; and every role string not
in the table is treated exactly as `authenticated` (in particular never as
`service_role`). -/
theorem canAccessTool_policy :
    (canAccessTool "service_role" ToolPrivilegeLevel.regular = true
      ∧ canAccessTool "service_role" ToolPrivilegeLevel.privileged = true)
    ∧ (canAccessTool "authenticated" ToolPrivilegeLevel.regular = true
      ∧ canAccessTool "authenticated" ToolPrivilegeLevel.privileged = false)
    ∧ (∀ p : ToolPrivilegeLevel, canAccessTool "anon" p = false)
    ∧ (∀ role : String, role ≠ "service_role" → role ≠ "authenticated" → role ≠ "anon" →
        ∀ p : ToolPrivilegeLevel, canAccessTool role p = canAccessTool "authenticated" p) := by
  refine ⟨⟨rfl, rfl⟩, ⟨rfl, rfl⟩, ?_, ?_⟩
  · intro p; cases p <;> rfl
  · exact canAccessTool_eq_authenticated_of_unrecognized

/-- Witness for C2 at a concrete unrecognized role: `supabase_admin` is not in
the table and is treated exactly as `authenticated` for the `privileged`
level (hence denied). -/
theorem canAccessTool_policy_witness :
    ("supabase_admin" ≠ "service_role"
      ∧ "supabase_admin" ≠ "authenticated"
      ∧ "supabase_admin" ≠ "anon")
    ∧ canAccessTool "supabase_admin" ToolPrivilegeLevel.privileged
        = canAccessTool "authenticated" ToolPrivilegeLevel.privileged :=
  ⟨⟨by decide, by decide, by decide⟩,
   canAccessTool_policy.2.2.2 "supabase_admin" (by decide) (by decide) (by decide)
     ToolPrivilegeLevel.privileged⟩

/-- Claim C1: when an Authenticated Identity is present (HTTP mode) and the
named tool's required privilege is `privileged` but the caller's role lacks
it, the dispatcher rejects the call with an error naming the required
privilege and the caller's role, emits the `[SECURITY]` audit line, and never
invokes the tool's `execute` function (so no backend call is made); when no
identity is present (stdio trusted local mode), the privilege check is skipped
entirely and dispatch proceeds to the validate/execute phase. -/
theorem privileged_tool_denied {α β : Type}
    (registeredTools availableTools : List (AppTool α β)) (u : UserContext)
    (toolName : String) (args : α) (tool : AppTool α β)
    (hfind : registeredTools.find? (fun t => t.name == toolName) = some tool)
    (hlvl : tool.privilegeLevel.getD ToolPrivilegeLevel.regular = ToolPrivilegeLevel.privileged)
    (hrole : canAccessTool u.role ToolPrivilegeLevel.privileged = false) :
    handleCallTool registeredTools availableTools (some u) toolName args
      = (CallToolResult.mcpError ErrorCode.invalidRequest
          (accessDeniedMessage toolName ToolPrivilegeLevel.privileged u.role),
         ⟨[securityLogLine u toolName ToolPrivilegeLevel.privileged], false⟩)
    ∧ handleCallTool registeredTools availableTools none toolName args
        = executePhase tool toolName args := by
  constructor
  · simp only [handleCallTool, hfind, hlvl, hrole]
    simp
  · simp only [handleCallTool, hfind]

/-- Witness for C1: a caller with role `authenticated` invoking the
`privileged` tool `execute_sql` is denied with the access-denied protocol
error and the audit line, with `execute` never invoked; the same call with no
identity proceeds to the execute phase. -/
theorem privileged_tool_denied_witness :
    ([sampleToolC1].find? (fun t => t.name == "execute_sql") = some sampleToolC1
      ∧ sampleToolC1.privilegeLevel.getD ToolPrivilegeLevel.regular
          = ToolPrivilegeLevel.privileged
      ∧ canAccessTool sampleUserC1.role ToolPrivilegeLevel.privileged = false)
    ∧ (handleCallTool [sampleToolC1] [sampleToolC1] (some sampleUserC1) "execute_sql" ""
        = (CallToolResult.mcpError ErrorCode.invalidRequest
            (accessDeniedMessage "execute_sql" ToolPrivilegeLevel.privileged sampleUserC1.role),
           ⟨[securityLogLine sampleUserC1 "execute_sql" ToolPrivilegeLevel.privileged], false⟩)
      ∧ handleCallTool [sampleToolC1] [sampleToolC1] none "execute_sql" ""
          = executePhase sampleToolC1 "execute_sql" "") :=
  ⟨⟨rfl, rfl, rfl⟩,
   privileged_tool_denied [sampleToolC1] [sampleToolC1] sampleUserC1 "execute_sql" ""
     sampleToolC1 rfl rfl rfl⟩

/-- Claim C5: a tool name absent from the effective (whitelist-filtered)
catalog but present in the full catalog yields the "disabled by configuration"
protocol error; a name present in neither yields the distinct "Unknown tool"
protocol error; the two messages are never equal; and neither case reaches the
authorize, validate or execute steps (no audit line, `execute` not invoked). -/
theorem unknown_vs_disabled {α β : Type}
    (registeredTools availableD availableU : List (AppTool α β))
    (uc ucU : Option UserContext) (nameD nameU : String) (args argsU : α)
    (hregD : registeredTools.find? (fun t => t.name == nameD) = none)
    (hregU : registeredTools.find? (fun t => t.name == nameU) = none)
    (hav : availableD.any (fun t => t.name == nameD) = true)
    (hnav : availableU.any (fun t => t.name == nameU) = false) :
    handleCallTool registeredTools availableD uc nameD args
      = (CallToolResult.mcpError ErrorCode.methodNotFound (disabledMessage nameD), ⟨[], false⟩)
    ∧ handleCallTool registeredTools availableU ucU nameU argsU
      = (CallToolResult.mcpError ErrorCode.methodNotFound (unknownMessage nameU), ⟨[], false⟩)
    ∧ disabledMessage nameD ≠ unknownMessage nameU := by
  refine ⟨?_, ?_, ?_⟩
  · simp only [handleCallTool, hregD, hav, if_true]
  · simp only [handleCallTool, hregU, hnav]
    simp
  · intro h
    have hd : (disabledMessage nameD).data.head? = (unknownMessage nameU).data.head? := by
      rw [h]
    have h1 : (disabledMessage nameD).data.head? = some 'T' := rfl
    have h2 : (unknownMessage nameU).data.head? = some 'U' := rfl
    rw [h1, h2] at hd
    exact absurd hd (by decide)

/-- Witness for C5: with an effective catalog containing only
`list_vector_indexes` and a full catalog also containing `execute_sql`,
calling `execute_sql` yields the disabled-by-configuration error, calling
`no_such_tool` yields the unknown-tool error, and the two messages differ. -/
theorem unknown_vs_disabled_witness :
    ([sampleToolC10].find? (fun t => t.name == "execute_sql") = none
      ∧ [sampleToolC10].find? (fun t => t.name == "no_such_tool") = none
      ∧ [sampleToolC10, sampleToolC1].any (fun t => t.name == "execute_sql") = true
      ∧ [sampleToolC10, sampleToolC1].any (fun t => t.name == "no_such_tool") = false)
    ∧ (handleCallTool [sampleToolC10] [sampleToolC10, sampleToolC1] none "execute_sql" ""
        = (CallToolResult.mcpError ErrorCode.methodNotFound (disabledMessage "execute_sql"),
           ⟨[], false⟩)
      ∧ handleCallTool [sampleToolC10] [sampleToolC10, sampleToolC1] none "no_such_tool" ""
        = (CallToolResult.mcpError ErrorCode.methodNotFound (unknownMessage "no_such_tool"),
           ⟨[], false⟩)
      ∧ disabledMessage "execute_sql" ≠ unknownMessage "no_such_tool") :=
  ⟨⟨rfl, rfl, rfl, rfl⟩,
   unknown_vs_disabled [sampleToolC10] [sampleToolC10, sampleToolC1]
     [sampleToolC10, sampleToolC1] none none "execute_sql" "no_such_tool" "" ""
     rfl rfl rfl rfl⟩

/-- Claim C8: when the raw arguments fail the tool's input contract, the
tool's `execute` function is never invoked and the single in-band error
message is the aggregation of every field-level violation, each formatted as
`path: reason` and joined into one message — not just the first violation. -/
theorem validation_aggregates {α β : Type}
    (registeredTools availableTools : List (AppTool α β)) (uc : Option UserContext)
    (toolName : String) (args : α) (tool : AppTool α β) (issues : List ZodIssue)
    (hfind : registeredTools.find? (fun t => t.name == toolName) = some tool)
    (hauth : ∀ u, uc = some u →
      canAccessTool u.role (tool.privilegeLevel.getD ToolPrivilegeLevel.regular) = true)
    (hparse : tool.parse args = Except.error issues) :
    handleCallTool registeredTools availableTools uc toolName args
      = (CallToolResult.reply (validationMessage toolName issues) true, ⟨[], false⟩) := by
  cases uc with
  | none => simp only [handleCallTool, hfind, executePhase, hparse]
  | some u =>
      have h := hauth u rfl
      simp only [handleCallTool, hfind, h, if_true, executePhase, hparse]

/-- Witness for C8: a parse failing with two issues produces one in-band error
listing both `sql: Required` and `read_only: Expected boolean, received
string`, and `execute` is never invoked. -/
theorem validation_aggregates_witness :
    ([sampleToolC8].find? (fun t => t.name == "execute_sql") = some sampleToolC8
      ∧ sampleToolC8.parse ""
        = Except.error
            [⟨["sql"], "Required"⟩, ⟨["read_only"], "Expected boolean, received string"⟩])
    ∧ handleCallTool [sampleToolC8] [sampleToolC8] none "execute_sql" ""
      = (CallToolResult.reply
          (validationMessage "execute_sql"
            [⟨["sql"], "Required"⟩, ⟨["read_only"], "Expected boolean, received string"⟩])
          true,
         ⟨[], false⟩) :=
  ⟨⟨rfl, rfl⟩,
   validation_aggregates [sampleToolC8] [sampleToolC8] none "execute_sql" "" sampleToolC8
     [⟨["sql"], "Required"⟩, ⟨["read_only"], "Expected boolean, received string"⟩]
     rfl (fun _ h => Option.noConfusion h) rfl⟩

/-- Claim C10: a registered tool whose descriptor omits `privilegeLevel` is
treated by the privilege check as requiring only `regular` privilege (omission
is never `privileged`), so a caller whose role is `authenticated` — or any
unrecognized role, which maps to the same policy — passes the check and
dispatch proceeds to the validate/execute phase. -/
theorem omitted_privilege_is_regular {α β : Type}
    (registeredTools availableTools : List (AppTool α β)) (u : UserContext)
    (toolName : String) (args : α) (tool : AppTool α β)
    (hfind : registeredTools.find? (fun t => t.name == toolName) = some tool)
    (hlvl : tool.privilegeLevel = none)
    (hrole : u.role = "authenticated"
      ∨ (u.role ≠ "service_role" ∧ u.role ≠ "authenticated" ∧ u.role ≠ "anon")) :
    tool.privilegeLevel.getD ToolPrivilegeLevel.regular = ToolPrivilegeLevel.regular
    ∧ handleCallTool registeredTools availableTools (some u) toolName args
        = executePhase tool toolName args := by
  have hreg : tool.privilegeLevel.getD ToolPrivilegeLevel.regular = ToolPrivilegeLevel.regular := by
    rw [hlvl]; rfl
  have hcan : canAccessTool u.role ToolPrivilegeLevel.regular = true := by
    rcases hrole with h | ⟨h1, h2, h3⟩
    · rw [h]; rfl
    · rw [canAccessTool_eq_authenticated_of_unrecognized u.role h1 h2 h3]; rfl
  refine ⟨hreg, ?_⟩
  simp only [handleCallTool, hfind, hreg, hcan, if_true]

/-- Witness for C10: a caller with role `authenticated` invoking
`list_vector_indexes`, whose descriptor omits `privilegeLevel`, passes the
privilege check (the effective level is `regular`) and dispatch proceeds to
the execute phase. -/
theorem omitted_privilege_is_regular_witness :
    ([sampleToolC10].find? (fun t => t.name == "list_vector_indexes") = some sampleToolC10
      ∧ sampleToolC10.privilegeLevel = none
      ∧ sampleUserC1.role = "authenticated")
    ∧ (sampleToolC10.privilegeLevel.getD ToolPrivilegeLevel.regular
        = ToolPrivilegeLevel.regular
      ∧ handleCallTool [sampleToolC10] [sampleToolC10] (some sampleUserC1)
          "list_vector_indexes" ""
        = executePhase sampleToolC10 "list_vector_indexes" "") :=
  ⟨⟨rfl, rfl, rfl⟩,
   omitted_privilege_is_regular [sampleToolC10] [sampleToolC10] sampleUserC1
     "list_vector_indexes" "" sampleToolC10 rfl rfl (Or.inl rfl)⟩

/-- Claim C3: when a direct database connection is configured, the fallback
chain runs the statement over it and returns exactly its rows or its database
error, invoking only the direct primitive — never the service-role RPC, even
when the direct connection reports a database error; and the RPC primitive is
invoked exactly when no direct connection is configured and a service-role key
is. -/
theorem fallback_prefers_direct
    (client c : SelfhostedSupabaseClient) (sql s : String) (readOnly ro : Bool)
    (hpg : client.isPgAvailable = true) :
    executeSqlWithFallback client sql readOnly = (client.executeSqlWithPg sql, [Backend.pg])
    ∧ (Backend.rpc ∈ (executeSqlWithFallback c s ro).2
        ↔ (c.isPgAvailable = false ∧ c.isServiceRoleAvailable = true)) := by
  constructor
  · simp [executeSqlWithFallback, hpg]
  · cases hc : c.isPgAvailable <;> cases hs : c.isServiceRoleAvailable <;>
      simp [executeSqlWithFallback, hc, hs]

/-- Witness for C3: a client with both a direct connection and a service-role
key, whose direct execution reports database error `42P01`, still returns that
error from the direct path with only the direct primitive invoked, and the RPC
primitive is not invoked for it. -/
theorem fallback_prefers_direct_witness :
    sampleClientC3.isPgAvailable = true
    ∧ (executeSqlWithFallback sampleClientC3 "SELECT 1" true
        = (sampleClientC3.executeSqlWithPg "SELECT 1", [Backend.pg])
      ∧ (Backend.rpc ∈ (executeSqlWithFallback sampleClientC3 "SELECT 1" true).2
          ↔ (sampleClientC3.isPgAvailable = false
            ∧ sampleClientC3.isServiceRoleAvailable = true))) :=
  ⟨rfl,
   fallback_prefers_direct sampleClientC3 sampleClientC3 "SELECT 1" "SELECT 1" true true rfl⟩

/-- Claim C6: when neither a direct connection nor a service-role key is
configured, the fallback chain returns the `MCP_CONFIG_ERROR` configuration
error for every statement with neither execution primitive invoked (zero
network activity); and the empty invocation trace occurs exactly in this
branch. -/
theorem fallback_config_error
    (client c : SelfhostedSupabaseClient) (sql s : String) (readOnly ro : Bool)
    (hpg : client.isPgAvailable = false) (hsr : client.isServiceRoleAvailable = false) :
    executeSqlWithFallback client sql readOnly
      = (SqlExecutionResult.sqlError
          ⟨"Neither direct database connection (DATABASE_URL) nor service role key (SUPABASE_SERVICE_ROLE_KEY) is configured. Cannot execute SQL.",
           "MCP_CONFIG_ERROR"⟩, [])
    ∧ ((executeSqlWithFallback c s ro).2 = []
        ↔ (c.isPgAvailable = false ∧ c.isServiceRoleAvailable = false)) := by
  constructor
  · simp [executeSqlWithFallback, hpg, hsr]
  · cases hc : c.isPgAvailable <;> cases hs : c.isServiceRoleAvailable <;>
      simp [executeSqlWithFallback, hc, hs]

/-- Witness for C6: a client with neither credential returns the
`MCP_CONFIG_ERROR` error with an empty invocation trace, and a client with a
direct connection has a non-empty trace (the iff instantiated at
`sampleClientC3`). -/
theorem fallback_config_error_witness :
    (sampleClientC6.isPgAvailable = false ∧ sampleClientC6.isServiceRoleAvailable = false)
    ∧ (executeSqlWithFallback sampleClientC6 "SELECT 1" true
        = (SqlExecutionResult.sqlError
            ⟨"Neither direct database connection (DATABASE_URL) nor service role key (SUPABASE_SERVICE_ROLE_KEY) is configured. Cannot execute SQL.",
             "MCP_CONFIG_ERROR"⟩, [])
      ∧ ((executeSqlWithFallback sampleClientC3 "SELECT 1" true).2 = []
          ↔ (sampleClientC3.isPgAvailable = false
            ∧ sampleClientC3.isServiceRoleAvailable = false))) :=
  ⟨⟨rfl, rfl⟩,
   fallback_config_error sampleClientC6 sampleClientC3 "SELECT 1" "SELECT 1" true true
     rfl rfl⟩

/-- Claim C4 (code-bug evidence): a token correctly signed with the configured
secret but with `exp` in the past throws `TokenExpiredError`, yet the
middleware answers with the generic invalid-token message `Invalid token: jwt
expired` — not the dedicated `Token has expired` response — because the
`instanceof JsonWebTokenError` branch is checked first and `TokenExpiredError`
is a subclass of `JsonWebTokenError`, so the dedicated branch at
`src/server/auth-middleware.ts` line 107 is unreachable.  (A token signed with
the wrong secret is rejected as `invalid signature` regardless of claims, as
the spec states.) -/
theorem expired_token_misreported :
    jwtVerify sampleSecret expiredTokenC4 200
      = Except.error (JwtLibError.tokenExpired 100)
    ∧ authHandleToken sampleSecret expiredTokenC4 200
        = AuthOutcome.respond 401 "Unauthorized" "Invalid token: jwt expired"
    ∧ authHandleToken sampleSecret expiredTokenC4 200
        ≠ AuthOutcome.respond 401 "Unauthorized" "Token has expired"
    ∧ authHandleToken sampleSecret wrongSecretTokenC4 200
        = AuthOutcome.respond 401 "Unauthorized" "Invalid token: invalid signature" :=
  ⟨rfl, rfl, by decide, rfl⟩

/-- Claim C9: a `GET /health` request returns the healthy liveness response
and leaves the rate-limit map untouched, for every rate-limit state (including
an exhausted one) and every Authorization header (including none) — neither
the rate-limit stage nor token validation is applied to it. -/
theorem health_bypasses_stages
    (opts : HttpMcpServerOptions) (st : RLState) (header : AuthHeader)
    (clientKey : String) (now : Nat) (origin : Option String)
    (horigin : isOriginAllowed opts origin = true) :
    handleHttpRequest opts st ⟨"GET", "/health", origin, header, clientKey⟩ now
      = (HttpOutcome.healthy, st) := by
  simp [handleHttpRequest, rateLimitStage, horigin]

/-- Witness for C9: with the only record of the rate-limit map already at the
default limit for the calling client, a `GET /health` with no Authorization
header still returns healthy and the map is unchanged. -/
theorem health_bypasses_stages_witness :
    (isOriginAllowed sampleOptsC9 none = true
      ∧ exhaustedStateC9 "10.0.0.1" = some ⟨100, 10000000⟩)
    ∧ handleHttpRequest sampleOptsC9 exhaustedStateC9
        ⟨"GET", "/health", none, AuthHeader.missing, "10.0.0.1"⟩ 50
      = (HttpOutcome.healthy, exhaustedStateC9) :=
  ⟨⟨rfl, rfl⟩,
   health_bypasses_stages sampleOptsC9 exhaustedStateC9 AuthHeader.missing "10.0.0.1" 50
     none rfl⟩

/-- Helper: while a live record for the client key stays under the configured
maximum, every request in the window is admitted (`next`) and the count rises
by exactly the number of requests, with the window expiry unchanged. -/
lemma runRequests_admits (opts : HttpMcpServerOptions) (key : String) (N R : Nat)
    (hN : opts.rateLimitMaxRequests = some N) (ts : List Nat) :
    ∀ (st : RLState) (c : Nat),
      st key = some ⟨c, R⟩ →
      (∀ t ∈ ts, t < R) →
      c + ts.length ≤ N →
      (runRequests opts "/mcp" key ts st).1 = List.replicate ts.length RateLimitOutcome.next
      ∧ (runRequests opts "/mcp" key ts st).2 key = some ⟨c + ts.length, R⟩ := by
  induction ts with
  | nil =>
      intro st c hst _ _
      exact ⟨rfl, by simpa using hst⟩
  | cons t ts ih =>
      intro st c hst hts hle
      have hmem : t < R := hts t (by simp)
      have hnotreset : ¬ (R ≤ t) := not_le.mpr hmem
      have hcount : ¬ (N ≤ c) := by
        have hl : (t :: ts).length = ts.length + 1 := rfl
        rw [hl] at hle
        omega
      have hstage : rateLimitStage opts st "/mcp" key t
          = (RateLimitOutcome.next,
             fun k => if k = key then some ⟨c + 1, R⟩ else st k) := by
        simp [rateLimitStage, checkRateLimit, hst, hN, hnotreset, hcount]
      have hst' : (fun k => if k = key then some (⟨c + 1, R⟩ : RateRecord) else st k) key
          = some ⟨c + 1, R⟩ := by simp
      have hts' : ∀ x ∈ ts, x < R := fun x hx => hts x (by simp [hx])
      have hle' : (c + 1) + ts.length ≤ N := by
        have hl : (t :: ts).length = ts.length + 1 := rfl
        rw [hl] at hle
        omega
      obtain ⟨h1, h2⟩ :=
        ih (fun k => if k = key then some ⟨c + 1, R⟩ else st k) (c + 1) hst' hts' hle'
      constructor
      · simp only [runRequests, hstage, h1, List.length_cons, List.replicate_succ]
      · simp only [runRequests, hstage, h2]
        have hc : c + 1 + ts.length = c + (ts.length + 1) := by omega
        rw [hc]
        rfl

/-- Claim C7: starting from a state with no record for the client key, a
window of exactly the configured maximum `N` requests is fully admitted
(each passes the rate-limit stage with `next`), and one further request inside
the same window is answered 429 (`rateLimited`) by the HTTP pipeline without
reaching the MCP dispatch and without modifying the map, carrying a
retry-after of at least 1 second and at most the window length in seconds. -/
theorem rate_limit_exhaustion
    (opts : HttpMcpServerOptions) (W N t0 : Nat) (key : String)
    (ts : List Nat) (tlast : Nat) (st0 : RLState)
    (header : AuthHeader) (origin : Option String)
    (hW : opts.rateLimitWindowMs = some W)
    (hN : opts.rateLimitMaxRequests = some N)
    (hlen : ts.length = N)
    (hhead : ts.head? = some t0)
    (hts : ∀ t ∈ ts, t0 ≤ t ∧ t < t0 + W)
    (hst0 : st0 key = none)
    (hlast1 : t0 ≤ tlast) (hlast2 : tlast < t0 + W) :
    (runRequests opts "/mcp" key ts st0).1 = List.replicate N RateLimitOutcome.next
    ∧ handleHttpRequest opts (runRequests opts "/mcp" key ts st0).2
        ⟨"POST", "/mcp", origin, header, key⟩ tlast
      = (HttpOutcome.rateLimited (retryAfterSeconds (t0 + W) tlast),
         (runRequests opts "/mcp" key ts st0).2)
    ∧ 1 ≤ retryAfterSeconds (t0 + W) tlast
    ∧ retryAfterSeconds (t0 + W) tlast ≤ (W + 999) / 1000 := by
  cases ts with
  | nil => cases hhead
  | cons a rest =>
    have ha : a = t0 := by simpa using hhead
    subst ha
    have hstage0 : rateLimitStage opts st0 "/mcp" key a
        = (RateLimitOutcome.next,
           fun k => if k = key then some ⟨1, a + W⟩ else st0 k) := by
      simp [rateLimitStage, checkRateLimit, hst0, hW, hN]
    have hst1 : (fun k => if k = key then some (⟨1, a + W⟩ : RateRecord) else st0 k) key
        = some ⟨1, a + W⟩ := by simp
    have hrest : ∀ x ∈ rest, x < a + W := fun x hx => (hts x (by simp [hx])).2
    have hlen' : rest.length + 1 = N := by simpa using hlen
    have hle : 1 + rest.length ≤ N := by omega
    obtain ⟨h1, h2⟩ :=
      runRequests_admits opts key N (a + W) hN rest
        (fun k => if k = key then some ⟨1, a + W⟩ else st0 k) 1 hst1 hrest hle
    have hcountN : 1 + rest.length = N := by omega
    rw [hcountN] at h2
    have hrun1 : (runRequests opts "/mcp" key (a :: rest) st0).1
        = List.replicate N RateLimitOutcome.next := by
      simp only [runRequests, hstage0, h1]
      rw [← hlen']
      rfl
    have hnotreset : ¬ (a + W ≤ tlast) := not_le.mpr hlast2
    have hstN : (runRequests opts "/mcp" key (a :: rest) st0).2 key
        = some ⟨N, a + W⟩ := by
      simp only [runRequests, hstage0]
      exact h2
    refine ⟨hrun1, ?_, ?_, ?_⟩
    · simp [handleHttpRequest, rateLimitStage, checkRateLimit, hstN, hN, hnotreset,
        retryAfterSeconds]
    · exact le_max_left 1 _
    · have hW1 : 1 ≤ W := by omega
      have hd : a + W - tlast + 999 ≤ W + 999 := by omega
      have hdiv : (a + W - tlast + 999) / 1000 ≤ (W + 999) / 1000 :=
        Nat.div_le_div_right hd
      have hone : 1 ≤ (W + 999) / 1000 := by
        rw [Nat.one_le_div_iff (by omega)]
        omega
      exact max_le hone hdiv

/-- Witness for C7: with a 60000 ms window and a maximum of 2, two requests at
times 0 and 10 from one client key are both admitted and a third at time 20 is
answered 429 with retry-after 60 seconds (at least 1, at most 60). -/
theorem rate_limit_exhaustion_witness :
    (sampleOptsC7.rateLimitWindowMs = some 60000
      ∧ sampleOptsC7.rateLimitMaxRequests = some 2
      ∧ ([0, 10] : List Nat).length = 2
      ∧ (fun _ : String => (none : Option RateRecord)) "10.0.0.1" = none)
    ∧ ((runRequests sampleOptsC7 "/mcp" "10.0.0.1" [0, 10] (fun _ => none)).1
        = List.replicate 2 RateLimitOutcome.next
      ∧ handleHttpRequest sampleOptsC7
          (runRequests sampleOptsC7 "/mcp" "10.0.0.1" [0, 10] (fun _ => none)).2
          ⟨"POST", "/mcp", none, AuthHeader.missing, "10.0.0.1"⟩ 20
        = (HttpOutcome.rateLimited (retryAfterSeconds (0 + 60000) 20),
           (runRequests sampleOptsC7 "/mcp" "10.0.0.1" [0, 10] (fun _ => none)).2)
      ∧ 1 ≤ retryAfterSeconds (0 + 60000) 20
      ∧ retryAfterSeconds (0 + 60000) 20 ≤ (60000 + 999) / 1000) :=
  ⟨⟨rfl, rfl, rfl, rfl⟩,
   rate_limit_exhaustion sampleOptsC7 60000 2 0 "10.0.0.1" [0, 10] 20 (fun _ => none)
     AuthHeader.missing none rfl rfl rfl rfl (by decide) rfl (by decide) (by decide)⟩

end SupabaseMcp
